import Mathlib

/-!
Shallow embedding of the gpp4323 power-supply control client (gpp4323.py).

The program drives a GW-Instek GPP4323 supply over a line-oriented SCPI-like
protocol.  The side-effecting Python methods are embedded as pure functions:

* the list of command lines a method writes to the transport is returned as an
  explicit `List Cmd` trace (`Cmd.render` reproduces the exact f-string each
  constructor stands for);
* the lines the instrument sends back are passed in as explicit arguments
  (status-register values for `wait`, response lines for mode/measurement
  queries);
* every `raise` site of the source is a constructor of `Err`, returned through
  `Except`.

Machine integers are `Nat`; the status-register bit tests `val & 32` … use
`&&&` on `Nat`.
-/

set_option autoImplicit false

namespace GPP

/-- The `raise` sites of gpp4323.py, one constructor per distinct failure.
`configuration` is the `GPPException` of `GPP4323.__init__` (missing
connection info); `commandSyntax`, `execution`, `deviceFault`, `timeout` are
the four `RuntimeError`s of `GPP4323.wait`; `invalidArgument` is the
`ValueError` of `Channel.set_load`; `modeTransition s` is the
`RuntimeError('supply failed to switch to … mode')` of `set_source` /
`set_load`; `attributeError`, `valueError`, `indexError` model the Python
crashes that occur when a response line fails to match or parse. -/
inductive Err where
  | configuration
  | commandSyntax
  | execution
  | deviceFault
  | timeout
  | invalidArgument
  | modeTransition (mode : String)
  | attributeError
  | valueError
  | indexError
  deriving DecidableEq

deriving instance DecidableEq for Except

/-- The stop-trigger kinds of `Channel.monitor`'s `:MONI{n}:STOP …` lines. -/
inductive StopKind where
  | beeper
  | outoff
  | alarm
  deriving DecidableEq

/-- The cycle-count field of a sequence configuration.  The Python source
stores either the literal `True` (meaning infinite) or an `int`; the two are
compared with `==`, under which `True == 1` holds. -/
inductive PyCycles where
  | pyTrue
  | pyInt (n : Int)
  deriving DecidableEq

/-- Python `seq.cycles == True` (gpp4323.py line 163): `True == True` and
`1 == True` are both true in Python. -/
def PyCycles.eqTrue : PyCycles → Bool
  | .pyTrue => true
  | .pyInt n => n == 1

/-- How Python's f-string renders the cycles value (`True` or the digits). -/
def PyCycles.render : PyCycles → String
  | .pyTrue => "True"
  | .pyInt n => toString n

/-- One command line written to the transport by `_sendline`; each
constructor corresponds to one f-string of the source. -/
inductive Cmd where
  | track0
  | opc
  | esrQ
  | modeQ (n : Nat)
  | measQ
  | sourCurr (n : Nat) (v : String)
  | sourVolt (n : Nat) (v : String)
  | loadCCOff (n : Nat)
  | loadCVOn (n : Nat)
  | loadCCOn (n : Nat)
  | loadCROn (n : Nat)
  | loadRes (n : Nat) (r : String)
  | moniStat (n : Nat) (st : Bool)
  | moniCurrCond (n : Nat) (cmp : String)
  | moniCurrCondNone (n : Nat)
  | moniCurrVal (n : Nat) (v : String)
  | moniVoltCond (n : Nat) (cmp : String)
  | moniVoltCondNone (n : Nat)
  | moniVoltVal (n : Nat) (v : String)
  | moniPowerCond (n : Nat) (cmp : String)
  | moniPowerCondNone (n : Nat)
  | moniPowerVal (n : Nat) (v : String)
  | moniStop (n : Nat) (kind : StopKind) (st : Bool)
  | dispHome
  | sequStat (n : Nat) (st : Bool)
  | sequGroup (n : Nat) (k : Nat)
  | sequPara (n : Nat) (i : Nat) (a b c : String)
  | sequStar (n : Nat) (g : Nat)
  | sequCycleI (n : Nat)
  | sequCycleN (n : Nat) (c : PyCycles)
  | sequEnds (n : Nat) (g : Nat)
  deriving DecidableEq

/-- Python's `'ON' if b else 'OFF'`. -/
def onOff (b : Bool) : String := if b then "ON" else "OFF"

/-- The keyword of a stop-trigger kind in the wire format. -/
def StopKind.render : StopKind → String
  | .beeper => "BEEPER"
  | .outoff => "OUTOFF"
  | .alarm => "ALARM"

/-- The exact line each `Cmd` stands for, reproducing the source f-strings
(without the trailing `\n` that `_sendline` appends). -/
def Cmd.render : Cmd → String
  | .track0 => "TRACK0"
  | .opc => "*OPC"
  | .esrQ => "*ESR?"
  | .modeQ n => ":MODE" ++ toString n ++ "?"
  | .measQ => ":MEAS?"
  | .sourCurr n v => ":SOUR" ++ toString n ++ ":CURR " ++ v
  | .sourVolt n v => ":SOUR" ++ toString n ++ ":VOLT " ++ v
  | .loadCCOff n => ":LOAD" ++ toString n ++ ":CC OFF"
  | .loadCVOn n => ":LOAD" ++ toString n ++ ":CV on"
  | .loadCCOn n => ":LOAD" ++ toString n ++ ":CC on"
  | .loadCROn n => ":LOAD" ++ toString n ++ ":CR on"
  | .loadRes n r => ":LOAD" ++ toString n ++ ":RES " ++ r
  | .moniStat n b => ":MONI" ++ toString n ++ ":STAT " ++ onOff b
  | .moniCurrCond n c => ":MONI" ++ toString n ++ ":CURR:COND " ++ c ++ "C,AND"
  | .moniCurrCondNone n => ":MONI" ++ toString n ++ ":CURR:COND NONE,NONE"
  | .moniCurrVal n v => ":MONI" ++ toString n ++ ":CURR:VAL " ++ v
  | .moniVoltCond n c => ":MONI" ++ toString n ++ ":VOLT:COND " ++ c ++ "V,AND"
  | .moniVoltCondNone n => ":MONI" ++ toString n ++ ":VOLT:COND NONE,NONE"
  | .moniVoltVal n v => ":MONI" ++ toString n ++ ":VOLT:VAL " ++ v
  | .moniPowerCond n c => ":MONI" ++ toString n ++ ":POWER:COND " ++ c ++ "P"
  | .moniPowerCondNone n => ":MONI" ++ toString n ++ ":POWER:COND NONE"
  | .moniPowerVal n v => ":MONI" ++ toString n ++ ":POWER:VAL " ++ v
  | .moniStop n k b => ":MONI" ++ toString n ++ ":STOP " ++ k.render ++ "," ++ onOff b
  | .dispHome => ":DISP:TYPE 1"
  | .sequStat n b => ":SEQU" ++ toString n ++ ":STAT " ++ onOff b
  | .sequGroup n k => ":SEQU" ++ toString n ++ ":GROUP " ++ toString k
  | .sequPara n i a b c =>
      ":SEQU" ++ toString n ++ ":PARA " ++ toString i ++ "," ++ a ++ "," ++ b ++ "," ++ c
  | .sequStar n g => ":SEQU" ++ toString n ++ ":STAR " ++ toString g
  | .sequCycleI n => ":SEQU" ++ toString n ++ ":CYCLE I"
  | .sequCycleN n c => ":SEQU" ++ toString n ++ ":CYCLE N," ++ c.render
  | .sequEnds n g => ":SEQU" ++ toString n ++ ":ENDS " ++ toString g

/-! ### The line codec: `GPP4323._expect`

Every pattern `_expect` is called with in the source, apart from the
four-group `*IDN?` pattern, is a single greedy one-or-more run of a character
class — `(\S+)`, `([\d\.]+)`, `(\d+)`, `([0-9.,;]+)`.  `searchRun` is
`re.search` for such a pattern: it finds the leftmost character of the class
and takes the maximal run from there (group 1 of the match). -/

/-- `re.search` for a pattern `(C+)` with `C` a character class: leftmost
maximal run of class characters, `none` when the line has no class
character. -/
def searchRun (cls : Char → Bool) : List Char → Option (List Char)
  | [] => none
  | c :: rest => if cls c then some (c :: rest.takeWhile cls) else searchRun cls rest

/-- The class `\S` (regex non-whitespace). -/
def nonSpace (c : Char) : Bool := !c.isWhitespace

/-- The class `\d` (regex digit). -/
def digitClass (c : Char) : Bool := c.isDigit

/-- The class `[0-9.,;]` used by `Measurement.update`'s aggregate query. -/
def measClass (c : Char) : Bool := c.isDigit || c == '.' || c == ',' || c == ';'

/-- `GPP4323._expect` (gpp4323.py lines 284-290) for a single-run pattern:
read one line, decode it, `m = re.search(pattern, s)`, and `return m` —
the match result is returned unconditionally, `None` included; no exception
is raised on a non-matching line. -/
def expect (cls : Char → Bool) (line : String) : Option String :=
  (searchRun cls line.data).map (fun l => String.mk l)

/-! ### `GPP4323.wait` (gpp4323.py lines 251-272)

The polling ladder is driven by the successive integer values parsed from the
`*ESR?` responses; `vals` is that sequence.  The result's first component is
the number of `*ESR?` polls issued (`_sendline("*ESR?")` executions). -/

/-- The `while tries > 0` loop of `wait`, including the `if tries == 0:
raise RuntimeError('supply never became ready')` check after the loop
(`Err.timeout`).  An exhausted `vals` list models a read that yields no
line: `re.search(r'(\d+)', '')` is `None` and `.group(1)` crashes
(`Err.attributeError`). -/
def waitPoll : List Nat → Nat → Nat × Except Err Unit
  | _, 0 => (0, Except.error Err.timeout)
  | [], _ + 1 => (1, Except.error Err.attributeError)
  | v :: rest, t + 1 =>
    if v &&& 32 ≠ 0 then (1, Except.error Err.commandSyntax)
    else if v &&& 16 ≠ 0 then (1, Except.error Err.execution)
    else if v &&& 8 ≠ 0 then (1, Except.error Err.deviceFault)
    else if v &&& 1 ≠ 0 then (1, Except.ok ())
    else
      let r := waitPoll rest t
      (r.1 + 1, r.2)

/-- `GPP4323.wait`: send `*OPC`, then poll `*ESR?` up to 5 times.  Returns
(number of `*ESR?` polls issued, outcome).  The `val & 128` and `val & 4`
branches of the source only log a warning and fall through; they do not
affect control flow and are not recorded here. -/
def wait (vals : List Nat) : Nat × Except Err Unit := waitPoll vals 5

/-- The command lines `wait` writes when it issues `polls` status polls:
`*OPC` once, then one `*ESR?` per poll. -/
def waitCmds (polls : Nat) : List Cmd := Cmd.opc :: List.replicate polls Cmd.esrQ

/-! ### `GPP4323.__init__` connection-mode selection (gpp4323.py lines 214-228)

Only the transport-selection ladder is embedded; the `*IDN?` bootstrap that
follows it is independent of the claims.  `host` is the optional
`(host, port)` tuple, `sport` the optional `(serial_port, speed)` tuple whose
components may themselves be `None` (the CLI passes `(a.serial, a.speed)`). -/

/-- The transport the constructor opens. -/
inductive Conn where
  | tcp (host : String) (port : Nat)
  | ser (path : String) (baud : Nat)
  deriving DecidableEq

/-- `if host is not None: …socket…  elif sport is not None and sport[0] is
not None and sport[1] is not None: …serial…  else: raise GPPException(…)`. -/
def initConn (host : Option (String × Nat)) (sport : Option (Option String × Option Nat)) :
    Except Err Conn :=
  match host with
  | some h => Except.ok (Conn.tcp h.1 h.2)
  | none =>
    match sport with
    | some (some p, some b) => Except.ok (Conn.ser p b)
    | _ => Except.error Err.configuration

/-! ### `Channel.set_source` (gpp4323.py lines 74-86) -/

/-- `set_source(voltage, current)` on channel `n`: `TRACK0`, channel 1-2 only
`:LOAD{n}:CC OFF`, set current then voltage, `wait()` (driven by `esr`), and
on channels 1-2 re-query `:MODE{n}?` against the response `line` and raise
unless group 1 is `IND`.  `voltage`/`current` are the decimal texts the
f-strings interpolate. -/
def set_source (n : Nat) (voltage current : String) (esr : List Nat) (line : String) :
    List Cmd × Except Err Unit :=
  let cmds := [Cmd.track0]
    ++ (if n == 1 || n == 2 then [Cmd.loadCCOff n] else [])
    ++ [Cmd.sourCurr n current, Cmd.sourVolt n voltage]
  let w := wait esr
  let cmds := cmds ++ waitCmds w.1
  match w.2 with
  | Except.error e => (cmds, Except.error e)
  | Except.ok _ =>
    if n == 1 || n == 2 then
      let cmds := cmds ++ [Cmd.modeQ n]
      match expect nonSpace line with
      | none => (cmds, Except.error Err.attributeError)
      | some m =>
        if m ≠ "IND" then (cmds, Except.error (Err.modeTransition "source"))
        else (cmds, Except.ok ())
    else (cmds, Except.ok ())

/-! ### `Channel.set_load` (gpp4323.py lines 88-111) -/

/-- `set_load(cv, cc, cr)` on channel `n`: the exclusivity guard raises
`ValueError` before any command is sent; otherwise the one supplied setpoint
is written, the matching load sub-mode enabled, `wait()` runs, and the mode
is re-queried against `line` and must equal the requested one.  The setpoint
arguments are the decimal texts the f-strings interpolate. -/
def set_load (n : Nat) (cv cc cr : Option String) (esr : List Nat) (line : String) :
    List Cmd × Except Err Unit :=
  if (cv.isNone && cc.isNone && cr.isNone) ||
     (cv.isSome && cc.isSome) || (cv.isSome && cr.isSome) || (cc.isSome && cr.isSome) then
    ([], Except.error Err.invalidArgument)
  else
    let mc : String × List Cmd :=
      match cv, cc, cr with
      | some v, _, _ => ("CV", [Cmd.sourVolt n v, Cmd.loadCVOn n])
      | none, some c, _ => ("CC", [Cmd.sourCurr n c, Cmd.loadCCOn n])
      | none, none, some r => ("CR", [Cmd.loadRes n r, Cmd.loadCROn n])
      | none, none, none => ("", [])
    let w := wait esr
    let cmds := mc.2 ++ waitCmds w.1
    match w.2 with
    | Except.error e => (cmds, Except.error e)
    | Except.ok _ =>
      let cmds := cmds ++ [Cmd.modeQ n]
      match expect nonSpace line with
      | none => (cmds, Except.error Err.attributeError)
      | some m =>
        if m ≠ mc.1 then (cmds, Except.error (Err.modeTransition mc.1))
        else (cmds, Except.ok ())

/-! ### `Channel.monitor` (gpp4323.py lines 119-154)

A threshold argument is the tuple built by `Monitor.ABOVE/BELOW/EQUAL`:
(comparator text, threshold text).  Such a tuple is always non-empty, so
Python's truthiness test `if current:` is `isSome` here. -/

/-- The straight-line command block of `monitor` up to the first `wait()`:
status off, the supplied conditions with their values, the explicit `NONE`
conditions for the absent ones, then the four stop-trigger writes. -/
def monitorPre (n : Nat) (current voltage power : Option (String × String)) (trigger : Nat) :
    List Cmd :=
  [Cmd.moniStat n false]
  ++ (match current with
      | some c => [Cmd.moniCurrCond n c.1, Cmd.moniCurrVal n c.2]
      | none => [])
  ++ (match voltage with
      | some v => [Cmd.moniVoltCond n v.1, Cmd.moniVoltVal n v.2]
      | none => [])
  ++ (match power with
      | some p => [Cmd.moniPowerCond n p.1, Cmd.moniPowerVal n p.2]
      | none => [])
  ++ (match current with
      | none => [Cmd.moniCurrCondNone n]
      | some _ => [])
  ++ (match voltage with
      | none => [Cmd.moniVoltCondNone n]
      | some _ => [])
  ++ (match power with
      | none => [Cmd.moniPowerCondNone n]
      | some _ => [])
  ++ [Cmd.moniStop n StopKind.beeper true,
      Cmd.moniStop n StopKind.outoff ((trigger &&& 1) != 0),
      Cmd.moniStop n StopKind.alarm ((trigger &&& 2) != 0),
      Cmd.moniStop n StopKind.beeper ((trigger &&& 4) != 0)]

/-- The tail of `monitor` from the first `wait()` on: first wait (driven by
`esr1`), then — if `armed`, i.e. Python's `trigger and (current or voltage
or power)` — `:MONI{n}:STAT ON`, then the second wait (driven by `esr2`),
then the home-screen reset. -/
def monitorTail (n : Nat) (armed : Bool) (esr1 esr2 : List Nat) :
    List Cmd × Except Err Unit :=
  let w1 := wait esr1
  match w1.2 with
  | Except.error e => (waitCmds w1.1, Except.error e)
  | Except.ok _ =>
    let arm := if armed then [Cmd.moniStat n true] else []
    let w2 := wait esr2
    match w2.2 with
    | Except.error e => (waitCmds w1.1 ++ arm ++ waitCmds w2.1, Except.error e)
    | Except.ok _ =>
      (waitCmds w1.1 ++ arm ++ waitCmds w2.1 ++ [Cmd.dispHome], Except.ok ())

/-- `monitor(current, voltage, power, trigger)` on channel `n`. -/
def monitor (n : Nat) (current voltage power : Option (String × String)) (trigger : Nat)
    (esr1 esr2 : List Nat) : List Cmd × Except Err Unit :=
  let t := monitorTail n
    ((trigger != 0) && (current.isSome || voltage.isSome || power.isSome)) esr1 esr2
  (monitorPre n current voltage power trigger ++ t.1, t.2)

/-- Is this one of the six condition-set lines (`…:CURR:COND …`,
`…:VOLT:COND …`, `…:POWER:COND …`, supplied or `NONE`)?  The `:VAL` lines
are value writes, not condition sets. -/
def Cmd.isCond : Cmd → Bool
  | .moniCurrCond _ _ => true
  | .moniCurrCondNone _ => true
  | .moniVoltCond _ _ => true
  | .moniVoltCondNone _ => true
  | .moniPowerCond _ _ => true
  | .moniPowerCondNone _ => true
  | _ => false

/-- Is this a stop-trigger line (`:MONI{n}:STOP …`)? -/
def Cmd.isStopTrig : Cmd → Bool
  | .moniStop _ _ _ => true
  | _ => false

/-! ### `Channel.sequence` (gpp4323.py lines 156-174) -/

/-- The sequence configuration object: `groups` (each group's three
parameters as the texts the f-string interpolates), `start`, `cycles`
(Python `True` for infinite, else an int), `end` (named `ends` here,
`end` being reserved). -/
structure SeqConfig where
  groups : List (String × String × String)
  start : Nat
  cycles : PyCycles
  ends : Nat
  deriving DecidableEq

/-- `sequence(seq, active)` on channel `n`: stat off, group count, the
per-group parameter writes, start index, the cycle-count write — `CYCLE I`
when `seq.cycles == True` (Python equality, under which `1 == True`),
else `CYCLE N,{seq.cycles}` — end index, `wait()`; if `active`, stat on and
a second `wait()`; finally the home-screen reset. -/
def sequence (n : Nat) (seq : SeqConfig) (esr1 esr2 : List Nat) (active : Bool) :
    List Cmd × Except Err Unit :=
  let cmds := [Cmd.sequStat n false, Cmd.sequGroup n seq.groups.length]
    ++ seq.groups.enum.map (fun p => Cmd.sequPara n p.1 p.2.1 p.2.2.1 p.2.2.2)
    ++ [Cmd.sequStar n seq.start]
    ++ [if seq.cycles.eqTrue then Cmd.sequCycleI n else Cmd.sequCycleN n seq.cycles]
    ++ [Cmd.sequEnds n seq.ends]
  let w1 := wait esr1
  let cmds := cmds ++ waitCmds w1.1
  match w1.2 with
  | Except.error e => (cmds, Except.error e)
  | Except.ok _ =>
    if active then
      let w2 := wait esr2
      let cmds := cmds ++ [Cmd.sequStat n true] ++ waitCmds w2.1
      match w2.2 with
      | Except.error e => (cmds, Except.error e)
      | Except.ok _ => (cmds ++ [Cmd.dispHome], Except.ok ())
    else (cmds ++ [Cmd.dispHome], Except.ok ())

/-! ### `Measurement.update` (gpp4323.py lines 189-203) -/

/-- Python `str.split(sep)` on a single-character separator (keeps empty
fields; the empty string splits to one empty field). -/
def charSplit (sep : Char) : List Char → List (List Char)
  | [] => [[]]
  | c :: rest =>
    let r := charSplit sep rest
    if c == sep then [] :: r
    else
      match r with
      | h :: t => (c :: h) :: t
      | [] => [[c]]

/-- Digits to the number they denote, most significant first. -/
def digitsToNat (l : List Char) : Nat :=
  l.foldl (fun a c => 10 * a + (c.toNat - '0'.toNat)) 0

/-- Python `float(s)` on the strings producible here (characters drawn from
`[0-9.,;]` and then split on `,`, so digits and dots): at most one dot and
at least one digit, read exactly as a decimal rational; anything else is a
`ValueError` (`none`). -/
def parsePyFloat (s : List Char) : Option Rat :=
  match charSplit '.' s with
  | [ip] =>
    if ip ≠ [] && ip.all Char.isDigit then some (mkRat (digitsToNat ip) 1) else none
  | [ip, fp] =>
    if (ip ≠ [] || fp ≠ []) && ip.all Char.isDigit && fp.all Char.isDigit then
      some (mkRat (digitsToNat ip * 10 ^ fp.length + digitsToNat fp) (10 ^ fp.length))
    else none
  | _ => none

/-- One entry of the measurement snapshot dictionary. -/
structure ChanMeas where
  voltage : Rat
  current : Rat
  power : Rat
  channel : Nat
  mode : String
  deriving DecidableEq

/-- The dict-comprehension body: `float(ch[0])`, `float(ch[1])`,
`float(ch[2])` — a missing field is an `IndexError`, a failed parse a
`ValueError`. -/
def parseTriple (fields : List (List Char)) : Except Err (Rat × Rat × Rat) :=
  match fields with
  | f0 :: f1 :: f2 :: _ =>
    match parsePyFloat f0, parsePyFloat f1, parsePyFloat f2 with
    | some a, some b, some c => Except.ok (a, b, c)
    | _, _, _ => Except.error Err.valueError
  | _ => Except.error Err.indexError

/-- The dict comprehension of `update`: entry `chn+1` for the `chn`-th
semicolon-separated triple. -/
def buildData : Nat → List (List (List Char)) → Except Err (List (Nat × (Rat × Rat × Rat)))
  | _, [] => Except.ok []
  | chn, ch :: rest =>
    match parseTriple ch with
    | Except.error e => Except.error e
    | Except.ok t =>
      match buildData (chn + 1) rest with
      | Except.error e => Except.error e
      | Except.ok r => Except.ok ((chn + 1, t) :: r)

/-- The `for chn in self.data:` loop of `update`: one `:MODE{chn}?` query per
entry, reading the next line of `lines` and taking group 1 of `(\S+)`
(`rv[1]`); a non-matching or missing line crashes (`AttributeError` on
`None`). -/
def attachModes : List (Nat × (Rat × Rat × Rat)) → List String →
    List Cmd × Except Err (List (Nat × ChanMeas))
  | [], _ => ([], Except.ok [])
  | (chn, (v, c, p)) :: rest, lines =>
    match lines with
    | [] => ([Cmd.modeQ chn], Except.error Err.attributeError)
    | l :: ls =>
      match expect nonSpace l with
      | none => ([Cmd.modeQ chn], Except.error Err.attributeError)
      | some m =>
        let r := attachModes rest ls
        (Cmd.modeQ chn :: r.1,
         r.2.map (fun d => (chn, ChanMeas.mk v c p chn m) :: d))

/-- `Measurement.update()`: one `:MEAS?` query whose response line is
`measLine`, matched against `([0-9.,;]+)`; group 1 split on `;` then `,` and
parsed to the per-channel triples keyed `1, 2, …`; then one mode query per
channel answered by the successive `modeLines`. -/
def update (measLine : String) (modeLines : List String) :
    List Cmd × Except Err (List (Nat × ChanMeas)) :=
  match expect measClass measLine with
  | none => ([Cmd.measQ], Except.error Err.attributeError)
  | some g =>
    let chs := (charSplit ';' g.data).map (charSplit ',')
    match buildData 0 chs with
    | Except.error e => ([Cmd.measQ], Except.error e)
    | Except.ok base =>
      let r := attachModes base modeLines
      (Cmd.measQ :: r.1, r.2)

/-! ## Helper lemmas -/

/-- `searchRun` finds nothing on a line with no class character. -/
theorem searchRun_eq_none (cls : Char → Bool) :
    ∀ l : List Char, (∀ c ∈ l, cls c = false) → searchRun cls l = none := by
  intro l
  induction l with
  | nil => intro _; rfl
  | cons c rest ih =>
    intro h
    have hc : cls c = false := h c (List.mem_cons_self c rest)
    simp only [searchRun, hc, Bool.false_eq_true, if_false]
    exact ih fun u hu => h u (List.mem_cons_of_mem c hu)

/-- When every available status value is free of the fatal bits and of the
ready bit, the polling loop runs its full attempt budget `t` and ends in the
timeout error, having polled exactly `t` times. -/
theorem waitPoll_all_zero :
    ∀ (t : Nat) (vals : List Nat), t ≤ vals.length →
      (∀ v ∈ vals, v &&& 32 = 0 ∧ v &&& 16 = 0 ∧ v &&& 8 = 0 ∧ v &&& 1 = 0) →
      waitPoll vals t = (t, Except.error Err.timeout) := by
  intro t
  induction t with
  | zero => intro vals _ _; cases vals <;> rfl
  | succ t ih =>
    intro vals hlen hall
    cases vals with
    | nil => simp at hlen
    | cons v rest =>
      have hv := hall v (List.mem_cons_self v rest)
      have hrest := ih rest
        (by simp only [List.length_cons] at hlen; omega)
        (fun u hu => hall u (List.mem_cons_of_mem v hu))
      simp [waitPoll, hv.1, hv.2.1, hv.2.2.1, hv.2.2.2, hrest]

/-- Status values with neither a fatal bit nor the ready bit are consumed
one poll apiece, decrementing the attempt budget. -/
theorem waitPoll_skip :
    ∀ pre : List Nat,
      (∀ v ∈ pre, v &&& 32 = 0 ∧ v &&& 16 = 0 ∧ v &&& 8 = 0 ∧ v &&& 1 = 0) →
      ∀ (rest : List Nat) (t : Nat),
        waitPoll (pre ++ rest) (pre.length + t) =
          ((waitPoll rest t).1 + pre.length, (waitPoll rest t).2) := by
  intro pre
  induction pre with
  | nil => intro _ rest t; simp
  | cons v pre ih =>
    intro h rest t
    have hv := h v (List.mem_cons_self v pre)
    have hpre := fun u hu => h u (List.mem_cons_of_mem v hu)
    have hlen : (v :: pre).length + t = (pre.length + t) + 1 := by
      simp only [List.length_cons]; omega
    rw [hlen]
    simp [waitPoll, hv.1, hv.2.1, hv.2.2.1, hv.2.2.2, ih hpre rest t]
    omega

/-- `countP` of a predicate that rejects the replicated element is 0. -/
theorem replicate_countP_zero {α : Type} (p : α → Bool) (a : α) (h : p a = false) :
    ∀ k, (List.replicate k a).countP p = 0 := by
  intro k
  induction k with
  | zero => rfl
  | succ k ih => simp [List.replicate_succ, List.countP_cons, h, ih]

/-- `filter` by a predicate that rejects the replicated element is empty. -/
theorem replicate_filter_nil {α : Type} (p : α → Bool) (a : α) (h : p a = false) :
    ∀ k, (List.replicate k a).filter p = [] := by
  intro k
  induction k with
  | zero => rfl
  | succ k ih => simp [List.replicate_succ, List.filter_cons, h, ih]

/-- Nothing issued from the first `wait()` of `monitor` onwards is a
condition-set line. -/
theorem monitorTail_countP_cond (n : Nat) (armed : Bool) (esr1 esr2 : List Nat) :
    (monitorTail n armed esr1 esr2).1.countP Cmd.isCond = 0 := by
  unfold monitorTail
  rcases h1 : (wait esr1).2 with e1 | u1 <;> rcases h2 : (wait esr2).2 with e2 | u2 <;>
    cases armed <;>
    simp [h1, h2, waitCmds, List.countP_cons, List.countP_append, List.mem_replicate,
      replicate_countP_zero Cmd.isCond Cmd.esrQ rfl, Cmd.isCond]

/-- Nothing issued from the first `wait()` of `monitor` onwards is a
stop-trigger line. -/
theorem monitorTail_filter_stop (n : Nat) (armed : Bool) (esr1 esr2 : List Nat) :
    (monitorTail n armed esr1 esr2).1.filter Cmd.isStopTrig = [] := by
  unfold monitorTail
  rcases h1 : (wait esr1).2 with e1 | u1 <;> rcases h2 : (wait esr2).2 with e2 | u2 <;>
    cases armed <;>
    simp [h1, h2, waitCmds, List.filter_cons, List.filter_append, List.mem_replicate,
      replicate_filter_nil Cmd.isStopTrig Cmd.esrQ rfl, Cmd.isStopTrig]

/-! ## Claims -/

/-- C1 counterexample: on the line `"READY\n"`, which contains no match for
the pattern `(\d+)`, `_expect` does not fail with
`ProtocolError(MalformedResponse)`: it returns the `None` match result to
the caller as an ordinary return value (`expect` has no failure outcome at
all — `return m` is unconditional in the source). -/
theorem expect_no_match_cex : expect digitClass "READY\n" = none := by decide

/-- C1 amended: for every line containing no match for the pattern,
`_expect` returns `None` to the caller instead of raising; the failure only
surfaces later, as an `AttributeError`, when the caller accesses a group of
the `None` result. -/
theorem expect_no_match_returns_none (cls : Char → Bool) (line : String)
    (h : ∀ c ∈ line.data, cls c = false) : expect cls line = none := by
  simp [expect, searchRun_eq_none cls line.data h]

/-- C1 amended, witness. -/
theorem expect_no_match_returns_none_witness : expect digitClass "ERR\n" = none :=
  expect_no_match_returns_none digitClass "ERR\n" (by decide)

/-- C2: when the five polled status-register values all lack the fatal bits
0x20/0x10/0x08 and the ready bit 0x01 (warning bits 0x80/0x04 may be set),
`wait` issues exactly 5 `*ESR?` polls and then fails with the timeout error
(the source's `RuntimeError('supply never became ready')`, the spec's
`ProtocolError(Timeout)`). -/
theorem wait_exhausted_timeout (vals : List Nat) (hlen : vals.length = 5)
    (h : ∀ v ∈ vals, v &&& 32 = 0 ∧ v &&& 16 = 0 ∧ v &&& 8 = 0 ∧ v &&& 1 = 0) :
    wait vals = (5, Except.error Err.timeout) :=
  waitPoll_all_zero 5 vals (by omega) h

/-- C2 witness: the spec's own simulated sequence `[0x00] * 5`. -/
theorem wait_exhausted_timeout_witness :
    wait [0, 0, 0, 0, 0] = (5, Except.error Err.timeout) :=
  wait_exhausted_timeout [0, 0, 0, 0, 0] (by decide) (by decide)

/-- C3: in any call to `wait`, whichever polling attempt first observes a
status value with bit 0x20 set — after any quiet prefix (attempts within the
5-attempt budget whose values have no fatal or ready bit) — `wait` fails
right there with the command-syntax error, issuing no further poll; under
the ladder's documented precedence (0x20 before 0x10 before 0x08), bit 0x10
likewise fails immediately with the execution error and bit 0x08 with the
device-fault error. -/
theorem wait_fatal_bits_abort (pre : List Nat) (v : Nat) (rest : List Nat)
    (hpre : ∀ u ∈ pre, u &&& 32 = 0 ∧ u &&& 16 = 0 ∧ u &&& 8 = 0 ∧ u &&& 1 = 0)
    (hlen : pre.length < 5) :
    (v &&& 32 ≠ 0 →
      wait (pre ++ v :: rest) = (pre.length + 1, Except.error Err.commandSyntax)) ∧
    (v &&& 32 = 0 → v &&& 16 ≠ 0 →
      wait (pre ++ v :: rest) = (pre.length + 1, Except.error Err.execution)) ∧
    (v &&& 32 = 0 → v &&& 16 = 0 → v &&& 8 ≠ 0 →
      wait (pre ++ v :: rest) = (pre.length + 1, Except.error Err.deviceFault)) := by
  obtain ⟨t, ht⟩ : ∃ t, (5 : Nat) = pre.length + (t + 1) := ⟨4 - pre.length, by omega⟩
  have hstep := waitPoll_skip pre hpre (v :: rest) (t + 1)
  have hv : ∀ e : Err, waitPoll (v :: rest) (t + 1) = (1, Except.error e) →
      wait (pre ++ v :: rest) = (pre.length + 1, Except.error e) := by
    intro e he
    unfold wait
    rw [ht, hstep, he]
    simp [Nat.add_comm]
  exact ⟨fun h32 => hv _ (by simp [waitPoll, h32]),
    fun h32 h16 => hv _ (by simp [waitPoll, h32, h16]),
    fun h32 h16 h8 => hv _ (by simp [waitPoll, h32, h16, h8])⟩

/-- C3 witness: `[0x00, 0x20]` aborts at the second poll with the
command-syntax error; the spec's `[0x20]` analogues for 0x10 / 0x08 abort at
the first. -/
theorem wait_fatal_bits_abort_witness :
    wait [0, 32] = (2, Except.error Err.commandSyntax) ∧
    wait [16] = (1, Except.error Err.execution) ∧
    wait [8] = (1, Except.error Err.deviceFault) :=
  ⟨(wait_fatal_bits_abort [0] 32 [] (by decide) (by decide)).1 (by decide),
   (wait_fatal_bits_abort [] 16 [] (by decide) (by decide)).2.1 (by decide) (by decide),
   (wait_fatal_bits_abort [] 8 [] (by decide) (by decide)).2.2
     (by decide) (by decide) (by decide)⟩

/-- C4 counterexample: with BOTH a TCP `(host, port)` pair and a complete
serial `(path, baud)` pair supplied, construction does not fail with
`ConfigurationError`: the `if host is not None` branch wins and a TCP
connection is opened. -/
theorem init_both_modes_cex :
    initConn (some ("192.168.1.72", 1026)) (some (some "/dev/ttyUSB0", some 115200)) =
      Except.ok (Conn.tcp "192.168.1.72" 1026) := rfl

/-- C4 amended: supplying neither mode — no host and no complete serial
pair — fails with the configuration error; supplying a host always yields a
TCP connection, even when serial info is also supplied (host takes
precedence, no error); a complete serial pair without a host yields a serial
connection. -/
theorem init_connection_modes :
    initConn none none = Except.error Err.configuration ∧
    (∀ h : String × Nat, ∀ sport, initConn (some h) sport = Except.ok (Conn.tcp h.1 h.2)) ∧
    (∀ p b, initConn none (some (some p, some b)) = Except.ok (Conn.ser p b)) ∧
    (∀ b, initConn none (some (none, b)) = Except.error Err.configuration) ∧
    (∀ p, initConn none (some (some p, none)) = Except.error Err.configuration) :=
  ⟨rfl, fun _ _ => rfl, fun _ _ => rfl, fun b => by cases b <;> rfl, fun _ => rfl⟩

/-- C5 (code bug): for the finite positive cycle count 1, `sequence` writes
the infinite-cycles marker `:SEQU1:CYCLE I` instead of the finite command
`:SEQU1:CYCLE N,1`: the source's test `seq.cycles == True` is Python `==`,
under which `1 == True` holds, so the count 1 is mistaken for the infinite
sentinel `True`. -/
theorem sequence_cycles_one_bug :
    sequence 1 (SeqConfig.mk [("1", "1", "1")] 0 (PyCycles.pyInt 1) 0) [1] [1] true =
      ([Cmd.sequStat 1 false, Cmd.sequGroup 1 1, Cmd.sequPara 1 0 "1" "1" "1",
        Cmd.sequStar 1 0, Cmd.sequCycleI 1, Cmd.sequEnds 1 0,
        Cmd.opc, Cmd.esrQ, Cmd.sequStat 1 true, Cmd.opc, Cmd.esrQ, Cmd.dispHome],
       Except.ok ()) := by
  decide

/-- C6: `set_load` with zero of {cv, cc, cr} supplied, or with more than one
supplied, fails with the invalid-argument error (`ValueError`) and writes
zero commands to the transport. -/
theorem set_load_exclusive_args (n : Nat) (cv cc cr : Option String)
    (esr : List Nat) (line : String)
    (h : (cv = none ∧ cc = none ∧ cr = none) ∨ (cv ≠ none ∧ cc ≠ none) ∨
         (cv ≠ none ∧ cr ≠ none) ∨ (cc ≠ none ∧ cr ≠ none)) :
    set_load n cv cc cr esr line = ([], Except.error Err.invalidArgument) := by
  rcases cv with _ | v <;> rcases cc with _ | c <;> rcases cr with _ | r <;>
    simp_all [set_load]

/-- C6 witness: cv and cc both supplied. -/
theorem set_load_exclusive_args_witness :
    set_load 1 (some "1.5") (some "2.0") none [] "" =
      ([], Except.error Err.invalidArgument) :=
  set_load_exclusive_args 1 (some "1.5") (some "2.0") none [] ""
    (Or.inr (Or.inl (by decide)))

/-- C7: on channels 1 and 2, `set_source` re-queries the mode after its
completion wait and fails with the mode-transition error whenever the
reported mode is not `IND`; on channels 3 and 4 it issues no mode query at
all and succeeds without verification. -/
theorem set_source_mode_verification (n : Nat) (voltage current : String)
    (esr : List Nat) (line m : String)
    (hw : (wait esr).2 = Except.ok ()) (hm : expect nonSpace line = some m) :
    ((n = 1 ∨ n = 2) → m ≠ "IND" →
      (set_source n voltage current esr line).2 =
        Except.error (Err.modeTransition "source")) ∧
    ((n = 3 ∨ n = 4) →
      (set_source n voltage current esr line).2 = Except.ok () ∧
      Cmd.modeQ n ∉ (set_source n voltage current esr line).1) := by
  constructor
  · rintro (rfl | rfl) hne <;> simp [set_source, hw, hm, hne]
  · rintro (rfl | rfl) <;>
      constructor <;> simp [set_source, hw, waitCmds, List.mem_replicate]

/-- C7 witness: a mode response `CV` trips the check on channel 1 and is
never even requested on channel 3. -/
theorem set_source_mode_verification_witness :
    (set_source 1 "5.0" "1.0" [1] "CV\n").2 =
      Except.error (Err.modeTransition "source") ∧
    (set_source 3 "5.0" "1.0" [1] "CV\n").2 = Except.ok () :=
  ⟨(set_source_mode_verification 1 "5.0" "1.0" [1] "CV\n" "CV"
      (by decide) (by decide)).1 (Or.inl rfl) (by decide),
   ((set_source_mode_verification 3 "5.0" "1.0" [1] "CV\n" "CV"
      (by decide) (by decide)).2 (Or.inl rfl)).1⟩

/-- C8: every `monitor` invocation, whatever thresholds and trigger bits are
supplied, writes exactly three condition-set lines (one per quantity, the
supplied condition or the explicit `NONE`) and exactly four stop-trigger
lines, in the order beeper arm, output-off state, alarm state, beeper
state. -/
theorem monitor_writes_all_conditions_and_stops (n : Nat)
    (current voltage power : Option (String × String)) (trigger : Nat)
    (esr1 esr2 : List Nat) :
    ((monitor n current voltage power trigger esr1 esr2).1.countP Cmd.isCond = 3) ∧
    ((monitor n current voltage power trigger esr1 esr2).1.filter Cmd.isStopTrig =
      [Cmd.moniStop n StopKind.beeper true,
       Cmd.moniStop n StopKind.outoff ((trigger &&& 1) != 0),
       Cmd.moniStop n StopKind.alarm ((trigger &&& 2) != 0),
       Cmd.moniStop n StopKind.beeper ((trigger &&& 4) != 0)]) := by
  unfold monitor
  rcases current with _ | c <;> rcases voltage with _ | v <;> rcases power with _ | p <;>
    simp [monitorPre, List.countP_append, List.filter_append, List.countP_cons,
      List.filter_cons, monitorTail_countP_cond, monitorTail_filter_stop,
      Cmd.isCond, Cmd.isStopTrig]

/-- C9: `Measurement.update`, given the aggregate response
`"1.234,0.500,0.617;5.000,1.000,5.000"` and the mode responses `"CV"` and
`"IND"`, yields the two-entry snapshot with 1-based channel numbers assigned
by position: channel 1 is {voltage 1.234, current 0.500, power 0.617, mode
"CV"}, channel 2 is {voltage 5.000, current 1.000, power 5.000, mode "IND"}
(each decimal written as the rational `mkRat d 1000`). -/
theorem update_example_snapshot :
    (update "1.234,0.500,0.617;5.000,1.000,5.000\n" ["CV\n", "IND\n"]).2 =
      Except.ok
        [(1, ChanMeas.mk (mkRat 1234 1000) (mkRat 500 1000) (mkRat 617 1000) 1 "CV"),
         (2, ChanMeas.mk (mkRat 5000 1000) (mkRat 1000 1000) (mkRat 5000 1000) 2 "IND")] := by
  decide

/-- C10: when the first four polled status values lack the fatal and ready
bits and the fifth sets the ready bit 0x01 (and no fatal bit), `wait`
succeeds after exactly 5 polls: the 5-attempt budget is inclusive of a
success on the final attempt. -/
theorem wait_success_last_attempt (pre : List Nat) (v : Nat) (hlen : pre.length = 4)
    (hpre : ∀ u ∈ pre, u &&& 32 = 0 ∧ u &&& 16 = 0 ∧ u &&& 8 = 0 ∧ u &&& 1 = 0)
    (h32 : v &&& 32 = 0) (h16 : v &&& 16 = 0) (h8 : v &&& 8 = 0) (h1 : v &&& 1 ≠ 0) :
    wait (pre ++ [v]) = (5, Except.ok ()) := by
  have hone : waitPoll [v] 1 = (1, Except.ok ()) := by
    show (if v &&& 32 ≠ 0 then (1, Except.error Err.commandSyntax)
      else if v &&& 16 ≠ 0 then (1, Except.error Err.execution)
      else if v &&& 8 ≠ 0 then (1, Except.error Err.deviceFault)
      else if v &&& 1 ≠ 0 then (1, Except.ok ())
      else
        let r := waitPoll [] 0
        (r.1 + 1, r.2)) = ((1 : Nat), Except.ok ())
    rw [if_neg (fun hc => hc h32), if_neg (fun hc => hc h16),
      if_neg (fun hc => hc h8), if_pos h1]
  have hstep := waitPoll_skip pre hpre [v] 1
  rw [hone] at hstep
  unfold wait
  have h5 : (5 : Nat) = pre.length + 1 := by omega
  rw [h5, hstep, hlen]

/-- C10 witness: ready bit first set on the fifth and final poll. -/
theorem wait_success_last_attempt_witness :
    wait [0, 0, 0, 0, 1] = (5, Except.ok ()) :=
  wait_success_last_attempt [0, 0, 0, 0] 1 (by decide) (by decide)
    (by decide) (by decide) (by decide) (by decide)

end GPP
